import Mathlib

/-!
Verification development for the student-api MCP/REST server
(`app.js`, `mcp-server.js`, and the plain-REST variant).

The JavaScript source is shallowly embedded: JS values become `JsVal`
(numbers as rationals), the SQLite data store and the HTTP backend become
explicit oracles (`Store`, `Http`), thrown exceptions become `Except`, and
every side effect (database statement submitted, HTTP call made, transport
message delivered, cleanup hook run) is recorded in an explicit trace list,
so that "the handler is never invoked" is the statement "the trace is empty".
-/

/-- JavaScript runtime values, as far as this server manipulates them.
Numbers are modelled as rationals (the few float operations the claims
touch are exact on the inputs involved); `undef` is JS `undefined`. -/
inductive JsVal where
  | null
  | undefined
  | bool (b : Bool)
  | num (q : ℚ)
  | str (s : String)
  | arr (elems : List JsVal)
  | obj (fields : List (String × JsVal))

/-- Property access `v.f`: on an object, the field value (missing field
gives `undefined`); on any other value the server code never reads a field
except through guarded paths, modelled as `undefined`. -/
def JsVal.getField : JsVal → String → JsVal
  | .obj fs, f => (fs.lookup f).getD .undefined
  | _, _ => .undefined

/-- JS truthiness, for the `||` defaults and `if (...)` guards in the source
(`NaN` does not arise in the embedded fragments). -/
def jsTruthy : JsVal → Bool
  | .null => false
  | .undefined => false
  | .bool b => b
  | .num q => !(q == 0)
  | .str s => !(s == "")
  | .arr _ => true
  | .obj _ => true

/-- Decimal rendering of an integral rational, used where JS prints a
number; non-integral rationals are rendered in `a/b` form (never exercised
by a claim: the ids and counts interpolated by the source are integers). -/
def jsNumToString (q : ℚ) : String :=
  if q.den = 1 then toString q.num else toString q

mutual

/-- `JSON.stringify` as used for the tool result payloads.  String escaping
and the `(null, 2)` pretty-printing whitespace are not reproduced (no claim
depends on the serialized text); `undefined` inside arrays serializes as
`null`, as in JS. -/
def jsonStringify : JsVal → String
  | .null => "null"
  | .undefined => "null"
  | .bool b => cond b "true" "false"
  | .num q => jsNumToString q
  | .str s => "\"" ++ s ++ "\""
  | .arr l => "[" ++ String.intercalate "," (jsonStringifyList l) ++ "]"
  | .obj fs => "\x7b" ++ String.intercalate "," (jsonStringifyFields fs) ++ "\x7d"

def jsonStringifyList : List JsVal → List String
  | [] => []
  | v :: t => jsonStringify v :: jsonStringifyList t

def jsonStringifyFields : List (String × JsVal) → List String
  | [] => []
  | (k, v) :: t => ("\"" ++ k ++ "\":" ++ jsonStringify v) :: jsonStringifyFields t

end

mutual

/-- JS template-literal interpolation `${v}` (ToString).  Arrays join their
elements with commas (null/undefined elements print empty), objects print
`[object Object]`. -/
def jsTemplate : JsVal → String
  | .null => "null"
  | .undefined => "undefined"
  | .bool b => cond b "true" "false"
  | .num q => jsNumToString q
  | .str s => s
  | .arr l => String.intercalate "," (jsTemplateElems l)
  | .obj _ => "[object Object]"

def jsTemplateElems : List JsVal → List String
  | [] => []
  | .null :: t => "" :: jsTemplateElems t
  | .undefined :: t => "" :: jsTemplateElems t
  | v :: t => jsTemplate v :: jsTemplateElems t

end

/-- `String.prototype.trim()`: strip leading and trailing whitespace. -/
def jsTrim (s : String) : String :=
  ((s.toList.dropWhile Char.isWhitespace).reverse.dropWhile Char.isWhitespace).reverse.asString

/-- `String.prototype.toUpperCase()` on the ASCII range (the `SELECT`
prefix guard only inspects ASCII letters). -/
def jsToUpperCase (s : String) : String :=
  (s.toList.map Char.toUpper).asString

/-- `String.prototype.startsWith`. -/
def jsStartsWith (s pre : String) : Bool :=
  pre.toList.isPrefixOf s.toList

/-- `Number.prototype.toFixed(2)`: render with two decimal digits,
rounding half away from zero on the magnitude (exact on the rationals the
embedding produces; no claim inspects this text). -/
def ratToFixed2 (q : ℚ) : String :=
  let a : ℕ := (200 * q.num.natAbs + q.den) / (2 * q.den)
  (if q.num < 0 && a ≠ 0 then "-" else "") ++ toString (a / 100) ++ "." ++
    (if a % 100 < 10 then "0" else "") ++ toString (a % 100)

/-- One MCP content block `{ type, text }`. -/
structure ContentBlock where
  type : String
  text : String

/-- The uniform MCP tool-call result envelope `{ content, isError }`.
Success results in the source omit `isError`; the absent (undefined,
falsy) field is modelled as `false`. -/
structure ToolCallResult where
  content : List ContentBlock
  isError : Bool

-- Small sanity examples (kept as theorems so the file stays effect-free).

theorem jsTrim_example : jsTrim "  drop table  " = "drop table" := by decide

theorem jsToUpperCase_example : jsToUpperCase "select * from x" = "SELECT * FROM X" := by
  decide

theorem ratToFixed2_example : ratToFixed2 (17/10 : ℚ) = "1.70" := by
  norm_num [ratToFixed2]
  decide

theorem jsonStringify_example :
    jsonStringify (.obj [("data", .arr [.num 3])]) = "\x7b\"data\":[3]\x7d" := by decide

/-! ## Schema validation (the Zod schemas of `app.js`)

`app.js` validates tool arguments with `Schema.parse(args)` before calling
the handler; a failed parse throws a `ZodError`, which the dispatch catch
block renders.  Validation errors are modelled structurally; `VErr.render`
is a compact form of the Zod message, which — like the real serialized
issue list — names the offending field in its path. -/

/-- A Zod validation failure: a missing required field, a wrongly typed
field, or a non-object argument payload. -/
inductive VErr where
  | required (field : String)
  | wrongType (field : String) (expected : String)
  | notObject

/-- The field a validation error points at (empty for the root-level
non-object case). -/
def VErr.fieldOf : VErr → String
  | .required f => f
  | .wrongType f _ => f
  | .notObject => ""

/-- Rendered validation-error message (compact model of the `ZodError`
message; it names the invalid field). -/
def VErr.render : VErr → String
  | .required f => f ++ ": Required"
  | .wrongType f t => f ++ ": Expected " ++ t
  | .notObject => "Expected object"

/-- Typed output of `StudentIdSchema` (`{ id: z.number() }`). -/
structure StudentIdArgs where
  id : ℚ

/-- `StudentIdSchema.parse`. -/
def parseStudentId : JsVal → Except VErr StudentIdArgs
  | .obj fs =>
    match fs.lookup "id" with
    | some (.num n) => .ok ⟨n⟩
    | some .undefined => .error (.required "id")
    | none => .error (.required "id")
    | some _ => .error (.wrongType "id" "number")
  | _ => .error .notObject

/-- Typed output of `SearchSchema` (`{ search: z.string() }`). -/
structure SearchArgs where
  search : String

/-- `SearchSchema.parse`. -/
def parseSearch : JsVal → Except VErr SearchArgs
  | .obj fs =>
    match fs.lookup "search" with
    | some (.str s) => .ok ⟨s⟩
    | some .undefined => .error (.required "search")
    | none => .error (.required "search")
    | some _ => .error (.wrongType "search" "string")
  | _ => .error .notObject

/-- Typed output of `ClassIdSchema` (`{ sinif_id: z.number() }`). -/
structure ClassIdArgs where
  sinif_id : ℚ

/-- `ClassIdSchema.parse`. -/
def parseClassId : JsVal → Except VErr ClassIdArgs
  | .obj fs =>
    match fs.lookup "sinif_id" with
    | some (.num n) => .ok ⟨n⟩
    | some .undefined => .error (.required "sinif_id")
    | none => .error (.required "sinif_id")
    | some _ => .error (.wrongType "sinif_id" "number")
  | _ => .error .notObject

/-- Typed output of `CustomQuerySchema`
(`{ query: z.string(), params: z.array(z.string()).optional() }`). -/
structure CustomQueryArgs where
  query : String
  params : Option (List String)

/-- Check that every element of a JS array is a string
(`z.array(z.string())`). -/
def parseStringList : List JsVal → Option (List String)
  | [] => some []
  | .str s :: t => (parseStringList t).map (s :: ·)
  | _ => none

/-- `CustomQuerySchema.parse`.  Zod reports the element index in the path
for a bad array element; the model attributes it to the `params` field. -/
def parseCustomQuery : JsVal → Except VErr CustomQueryArgs
  | .obj fs =>
    match fs.lookup "query" with
    | some (.str q) =>
      (match fs.lookup "params" with
       | none => .ok ⟨q, none⟩
       | some .undefined => .ok ⟨q, none⟩
       | some (.arr l) =>
         match parseStringList l with
         | some ps => .ok ⟨q, some ps⟩
         | none => .error (.wrongType "params" "array of strings")
       | some _ => .error (.wrongType "params" "array"))
    | some .undefined => .error (.required "query")
    | none => .error (.required "query")
    | some _ => .error (.wrongType "query" "string")
  | _ => .error .notObject

/-! ## The Data Store (sqlite3 `db`) and its call trace

The claims quantify over what the store reports, so the store is an
oracle; every statement actually submitted to it is recorded as a
`StoreCall`, so "no statement is submitted" / "the handler is never
invoked" is `trace = []`. -/

/-- A database row, as the sqlite3 driver hands it to JS. -/
abbrev DbRow := List (String × JsVal)

/-- Result object of `db.run` (`this.lastID`, `this.changes`). -/
structure RunInfo where
  lastID : ℤ
  changes : ℤ

/-- The Data Store oracle: `db.get` yields an optional row, `db.all` a row
list, `db.run` a `RunInfo`; the `.error` case is the driver invoking the
callback with `err` set. -/
structure Store where
  get : String → List JsVal → Except String (Option DbRow)
  all : String → List JsVal → Except String (List DbRow)
  run : String → List JsVal → Except String RunInfo

/-- One statement submitted to the Data Store. -/
inductive StoreCall where
  | dbGet (sql : String) (params : List JsVal)
  | dbAll (sql : String) (params : List JsVal)
  | dbRun (sql : String) (params : List JsVal)

/-- SQL text of the source's template literals, with the whitespace runs of
the multi-line literals collapsed (no claim depends on the whitespace). -/
def allStudentsQuery : String :=
  "SELECT o.*, s.sinif_adi, s.seviye FROM ogrenciler o LEFT JOIN siniflar s ON o.sinif_id = s.id WHERE o.aktif = 1 ORDER BY o.ad, o.soyad"

def studentByIdQuery : String :=
  "SELECT o.*, s.sinif_adi, s.seviye FROM ogrenciler o LEFT JOIN siniflar s ON o.sinif_id = s.id WHERE o.id = ?"

def studentGradesQuery : String :=
  "SELECT n.*, d.ders_adi, d.kod as ders_kodu FROM notlar n JOIN dersler d ON n.ders_id = d.id WHERE n.ogrenci_id = ? ORDER BY n.tarih DESC"

def studentAttendanceQuery : String :=
  "SELECT d.*, dr.ders_adi, dr.kod as ders_kodu FROM devamsizlik d JOIN dersler dr ON d.ders_id = dr.id WHERE d.ogrenci_id = ? ORDER BY d.tarih DESC"

def studentPaymentsQuery : String :=
  "SELECT * FROM odemeler WHERE ogrenci_id = ? ORDER BY tarih DESC"

def studentsByClassQuery : String :=
  "SELECT o.*, s.sinif_adi, s.seviye FROM ogrenciler o JOIN siniflar s ON o.sinif_id = s.id WHERE o.sinif_id = ? AND o.aktif = 1 ORDER BY o.ad, o.soyad"

def searchStudentsQuery : String :=
  "SELECT o.*, s.sinif_adi, s.seviye FROM ogrenciler o LEFT JOIN siniflar s ON o.sinif_id = s.id WHERE (o.ad LIKE ? OR o.soyad LIKE ? OR o.tc_no LIKE ?) AND o.aktif = 1 ORDER BY o.ad, o.soyad"

def studentAverageQuery : String :=
  "SELECT AVG(CAST(not_degeri as FLOAT)) as genel_ortalama, COUNT(*) as toplam_not, d.ders_adi, AVG(CAST(n.not_degeri as FLOAT)) as ders_ortalama FROM notlar n JOIN dersler d ON n.ders_id = d.id WHERE n.ogrenci_id = ? GROUP BY d.id, d.ders_adi ORDER BY ders_ortalama DESC"

/-- The rejection message of `getStudentById` when `db.get` reports no row
(Turkish for "student not found"). -/
def studentNotFoundMsg : String := "Öğrenci bulunamadı"

/-- The rejection message of the free-form query guard (Turkish for "only
SELECT queries are supported"). -/
def selectOnlyMsg : String := "Sadece SELECT sorguları desteklenir"

/-- Success payload `{ content: [{ type: "text", text: JSON.stringify({ data: v }) }] }`. -/
def mkDataResult (v : JsVal) : ToolCallResult :=
  { content := [⟨"text", jsonStringify (.obj [("data", v)])⟩], isError := false }

/-! ## `app.js` tool handler functions

Each JS function returns a promise that resolves with a result or rejects
with an error: modelled as `Except String ToolCallResult`, paired with the
trace of store calls it performs. -/

def getAllStudents (store : Store) : Except String ToolCallResult × List StoreCall :=
  (match store.all allStudentsQuery [] with
   | .error e => .error e
   | .ok rows => .ok (mkDataResult (.arr (rows.map JsVal.obj))),
   [.dbAll allStudentsQuery []])

def getStudentById (store : Store) (id : ℚ) : Except String ToolCallResult × List StoreCall :=
  (match store.get studentByIdQuery [.num id] with
   | .error e => .error e
   | .ok none => .error studentNotFoundMsg
   | .ok (some row) => .ok (mkDataResult (.obj row)),
   [.dbGet studentByIdQuery [.num id]])

def getStudentGrades (store : Store) (id : ℚ) : Except String ToolCallResult × List StoreCall :=
  (match store.all studentGradesQuery [.num id] with
   | .error e => .error e
   | .ok rows => .ok (mkDataResult (.arr (rows.map JsVal.obj))),
   [.dbAll studentGradesQuery [.num id]])

def getStudentAttendance (store : Store) (id : ℚ) : Except String ToolCallResult × List StoreCall :=
  (match store.all studentAttendanceQuery [.num id] with
   | .error e => .error e
   | .ok rows => .ok (mkDataResult (.arr (rows.map JsVal.obj))),
   [.dbAll studentAttendanceQuery [.num id]])

def getStudentPayments (store : Store) (id : ℚ) : Except String ToolCallResult × List StoreCall :=
  (match store.all studentPaymentsQuery [.num id] with
   | .error e => .error e
   | .ok rows => .ok (mkDataResult (.arr (rows.map JsVal.obj))),
   [.dbAll studentPaymentsQuery [.num id]])

def getStudentsByClass (store : Store) (sinifId : ℚ) : Except String ToolCallResult × List StoreCall :=
  (match store.all studentsByClassQuery [.num sinifId] with
   | .error e => .error e
   | .ok rows => .ok (mkDataResult (.arr (rows.map JsVal.obj))),
   [.dbAll studentsByClassQuery [.num sinifId]])

def searchStudents (store : Store) (searchTerm : String) : Except String ToolCallResult × List StoreCall :=
  (match store.all searchStudentsQuery
      [.str ("%" ++ searchTerm ++ "%"), .str ("%" ++ searchTerm ++ "%"), .str ("%" ++ searchTerm ++ "%")] with
   | .error e => .error e
   | .ok rows => .ok (mkDataResult (.arr (rows.map JsVal.obj))),
   [.dbAll searchStudentsQuery
      [.str ("%" ++ searchTerm ++ "%"), .str ("%" ++ searchTerm ++ "%"), .str ("%" ++ searchTerm ++ "%")]])

/-- A row field read as a number (`row.ders_ortalama`); adding a
non-number would give `NaN` in JS, never produced by this query's rows. -/
def numFieldOrZero (row : DbRow) (f : String) : ℚ :=
  match row.lookup f with
  | some (.num q) => q
  | _ => 0

def getStudentAverage (store : Store) (id : ℚ) : Except String ToolCallResult × List StoreCall :=
  (match store.all studentAverageQuery [.num id] with
   | .error e => .error e
   | .ok rows =>
     let genelOrtalama : ℚ :=
       if rows.length > 0 then
         (rows.foldl (fun s row => s + numFieldOrZero row "ders_ortalama") 0) / rows.length
       else 0
     .ok { content := [⟨"text",
             jsonStringify (.obj [("data", .obj
               [("genel_ortalama", .str (ratToFixed2 genelOrtalama)),
                ("ders_ortalamalari", .arr (rows.map JsVal.obj))])])⟩],
           isError := false },
   [.dbAll studentAverageQuery [.num id]])

/-- `customQuery(query, params = [])`: the prefix guard rejects before any
statement reaches the store (the source tests the negation first; branch
order is inverted here with identical semantics). -/
def customQuery (store : Store) (query : String) (params : List String) : Except String ToolCallResult × List StoreCall :=
  if jsStartsWith (jsToUpperCase (jsTrim query)) "SELECT" then
    (match store.all query (params.map JsVal.str) with
     | .error e => .error e
     | .ok rows => .ok (mkDataResult (.arr (rows.map JsVal.obj))),
     [.dbAll query (params.map JsVal.str)])
  else
    (.error selectOnlyMsg, [])

/-! ## `app.js` CallTool dispatch

The `CallToolRequestSchema` handler is a `switch` on the tool name whose
body may throw (unknown tool, `ZodError`, rejected handler promise) and a
`catch` that renders any thrown error as an `isError:true` result.  The
switch is embedded as an association table in case order; falling through
to `default` is the lookup miss. -/

/-- One `case` body of the `app.js` switch: validate, then run the handler. -/
def AppHandler := Store → JsVal → Except String ToolCallResult × List StoreCall

def getAllStudentsTool : AppHandler := fun store _args => getAllStudents store

def getStudentByIdTool : AppHandler := fun store args =>
  match parseStudentId args with
  | .error e => (.error e.render, [])
  | .ok v => getStudentById store v.id

def getStudentGradesTool : AppHandler := fun store args =>
  match parseStudentId args with
  | .error e => (.error e.render, [])
  | .ok v => getStudentGrades store v.id

def getStudentAttendanceTool : AppHandler := fun store args =>
  match parseStudentId args with
  | .error e => (.error e.render, [])
  | .ok v => getStudentAttendance store v.id

def getStudentPaymentsTool : AppHandler := fun store args =>
  match parseStudentId args with
  | .error e => (.error e.render, [])
  | .ok v => getStudentPayments store v.id

def getStudentsByClassTool : AppHandler := fun store args =>
  match parseClassId args with
  | .error e => (.error e.render, [])
  | .ok v => getStudentsByClass store v.sinif_id

def searchStudentsTool : AppHandler := fun store args =>
  match parseSearch args with
  | .error e => (.error e.render, [])
  | .ok v => searchStudents store v.search

def getStudentAverageTool : AppHandler := fun store args =>
  match parseStudentId args with
  | .error e => (.error e.render, [])
  | .ok v => getStudentAverage store v.id

def customQueryTool : AppHandler := fun store args =>
  match parseCustomQuery args with
  | .error e => (.error e.render, [])
  | .ok v => customQuery store v.query (v.params.getD [])

/-- The `switch` cases of the `app.js` CallTool handler, in source order. -/
def appToolTable : List (String × AppHandler) :=
  [("get_all_students", getAllStudentsTool),
   ("get_student_by_id", getStudentByIdTool),
   ("get_student_grades", getStudentGradesTool),
   ("get_student_attendance", getStudentAttendanceTool),
   ("get_student_payments", getStudentPaymentsTool),
   ("get_students_by_class", getStudentsByClassTool),
   ("search_students", searchStudentsTool),
   ("get_student_average", getStudentAverageTool),
   ("custom_query", customQueryTool)]

/-- The tool names the `app.js` dispatcher resolves: its registry. -/
def appRegisteredNames : List String := appToolTable.map Prod.fst

/-- The `try` body: resolve the case or throw `Unknown tool: <name>`. -/
def appDispatchBody (store : Store) (name : String) (args : JsVal) :
    Except String ToolCallResult × List StoreCall :=
  match appToolTable.lookup name with
  | some h => h store args
  | none => (.error ("Unknown tool: " ++ name), [])

/-- The `catch` wrapper: `{ content: [{type:"text", text:`Error: ...`}], isError: true }`. -/
def mkAppError (e : String) : ToolCallResult :=
  { content := [⟨"text", "Error: " ++ e⟩], isError := true }

/-- The `catch` block applied to the body's outcome. -/
def appCatch : Except String ToolCallResult × List StoreCall → ToolCallResult × List StoreCall
  | (.ok r, t) => (r, t)
  | (.error e, t) => (mkAppError e, t)

/-- The complete `app.js` CallTool request handler.  Its totality — every
thrown error is rendered into a `ToolCallResult` — is the "no exception
escapes the dispatch boundary" contract. -/
def appDispatch (store : Store) (name : String) (args : JsVal) :
    ToolCallResult × List StoreCall :=
  appCatch (appDispatchBody store name args)

/-! ## `app.js` ListTools response -/

/-- Which Zod schema a listed tool's `inputSchema` is generated from
(`zodToJsonSchema(...)`), or the literal empty object. -/
inductive AppInputSchema where
  | emptyObject
  | studentIdSchema
  | classIdSchema
  | searchSchema
  | customQuerySchema

/-- One entry of the ListTools response: name, description, input shape. -/
structure AppToolDecl where
  name : String
  description : String
  inputSchema : AppInputSchema

/-- The `tools` array returned by the `app.js` `ListToolsRequestSchema`
handler, in declaration order. -/
def appListTools : List AppToolDecl :=
  [⟨"get_all_students", "Tüm aktif öğrencileri sınıf bilgileriyle birlikte getir", .emptyObject⟩,
   ⟨"get_student_by_id", "ID ile öğrenci bilgilerini getir", .studentIdSchema⟩,
   ⟨"get_student_grades", "Öğrencinin notlarını getir", .studentIdSchema⟩,
   ⟨"get_student_attendance", "Öğrencinin devamsızlık bilgilerini getir", .studentIdSchema⟩,
   ⟨"get_student_payments", "Öğrencinin ödeme bilgilerini getir", .studentIdSchema⟩,
   ⟨"get_students_by_class", "Sınıfa göre öğrencileri getir", .classIdSchema⟩,
   ⟨"search_students", "Öğrenci ara (isim, soyisim, TC)", .searchSchema⟩,
   ⟨"get_student_average", "Öğrencinin not ortalamasını getir", .studentIdSchema⟩,
   ⟨"custom_query", "Özel SELECT sorgusu çalıştır", .customQuerySchema⟩]

/-! ## `mcp-server.js`: the stdio server that proxies to the REST API

Its CallTool handler performs no argument validation: it interpolates
`args.<field>` straight into the request URL or forwards `args` as the
request body.  The axios backend is an oracle (`Http`); a non-2xx response
or network failure is a thrown error (`.error`), the `catch` renders it as
`Hata: <message>`.  Every HTTP request actually issued is traced as an
`ApiCall`. -/

/-- The axios backend oracle: the JSON body `resp.data` on success, a
thrown error message otherwise. -/
structure Http where
  get : String → Except String JsVal
  post : String → JsVal → Except String JsVal
  put : String → JsVal → Except String JsVal
  delete : String → Except String JsVal

/-- One HTTP request issued by the stdio server. -/
inductive ApiCall where
  | get (url : String)
  | post (url : String) (body : JsVal)
  | put (url : String) (body : JsVal)
  | delete (url : String)

/-- `API_BASE_URL` default. -/
def apiBase : String := "http://localhost:3000/api"

/-- Wrap an axios response the way every switch case does:
`{ content: [{ type: "text", text: JSON.stringify(resp.data, null, 2) }] }`. -/
def mcpWrap (resp : Except String JsVal) : Except String ToolCallResult :=
  resp.map fun d => { content := [⟨"text", jsonStringify d⟩], isError := false }

/-- One `case` body of the `mcp-server.js` switch. -/
def McpHandler := Http → JsVal → Except String ToolCallResult × List ApiCall

/-- The `switch` cases of the `mcp-server.js` CallTool handler, in source
order.  URL interpolation uses JS template semantics, so a missing
argument field interpolates as the text `undefined`. -/
def mcpToolTable : List (String × McpHandler) :=
  [("get_all_students", fun http _args =>
     (mcpWrap (http.get (apiBase ++ "/ogrenciler")), [.get (apiBase ++ "/ogrenciler")])),
   ("get_student_by_id", fun http args =>
     (mcpWrap (http.get (apiBase ++ "/ogrenciler/" ++ jsTemplate (args.getField "id"))),
      [.get (apiBase ++ "/ogrenciler/" ++ jsTemplate (args.getField "id"))])),
   ("get_student_grades", fun http args =>
     (mcpWrap (http.get (apiBase ++ "/ogrenciler/" ++ jsTemplate (args.getField "id") ++ "/notlar")),
      [.get (apiBase ++ "/ogrenciler/" ++ jsTemplate (args.getField "id") ++ "/notlar")])),
   ("get_student_attendance", fun http args =>
     (mcpWrap (http.get (apiBase ++ "/ogrenciler/" ++ jsTemplate (args.getField "id") ++ "/devamsizlik")),
      [.get (apiBase ++ "/ogrenciler/" ++ jsTemplate (args.getField "id") ++ "/devamsizlik")])),
   ("get_student_payments", fun http args =>
     (mcpWrap (http.get (apiBase ++ "/ogrenciler/" ++ jsTemplate (args.getField "id") ++ "/odemeler")),
      [.get (apiBase ++ "/ogrenciler/" ++ jsTemplate (args.getField "id") ++ "/odemeler")])),
   ("get_students_by_class", fun http args =>
     (mcpWrap (http.get (apiBase ++ "/siniflar/" ++ jsTemplate (args.getField "sinif_id") ++ "/ogrenciler")),
      [.get (apiBase ++ "/siniflar/" ++ jsTemplate (args.getField "sinif_id") ++ "/ogrenciler")])),
   ("search_students", fun http args =>
     (mcpWrap (http.get (apiBase ++ "/ogrenciler/ara/" ++ jsTemplate (args.getField "search"))),
      [.get (apiBase ++ "/ogrenciler/ara/" ++ jsTemplate (args.getField "search"))])),
   ("get_student_average", fun http args =>
     (mcpWrap (http.get (apiBase ++ "/ogrenciler/" ++ jsTemplate (args.getField "id") ++ "/ortalama")),
      [.get (apiBase ++ "/ogrenciler/" ++ jsTemplate (args.getField "id") ++ "/ortalama")])),
   ("add_student", fun http args =>
     (mcpWrap (http.post (apiBase ++ "/ogrenciler") args), [.post (apiBase ++ "/ogrenciler") args])),
   ("update_student", fun http args =>
     (mcpWrap (http.put (apiBase ++ "/ogrenciler/" ++ jsTemplate (args.getField "id")) args),
      [.put (apiBase ++ "/ogrenciler/" ++ jsTemplate (args.getField "id")) args])),
   ("delete_student", fun http args =>
     (mcpWrap (http.delete (apiBase ++ "/ogrenciler/" ++ jsTemplate (args.getField "id"))),
      [.delete (apiBase ++ "/ogrenciler/" ++ jsTemplate (args.getField "id"))])),
   ("custom_query", fun http args =>
     (mcpWrap (http.post (apiBase ++ "/custom-query")
        (.obj [("query", args.getField "query"),
               ("params", if jsTruthy (args.getField "params") then args.getField "params" else .arr [])])),
      [.post (apiBase ++ "/custom-query")
        (.obj [("query", args.getField "query"),
               ("params", if jsTruthy (args.getField "params") then args.getField "params" else .arr [])])]))]

/-- The tool names the stdio dispatcher resolves: its registry. -/
def mcpRegisteredNames : List String := mcpToolTable.map Prod.fst

/-- The `try` body: resolve the case or throw `Bilinmeyen araç: <name>`
(Turkish for "unknown tool"). -/
def mcpDispatchBody (http : Http) (name : String) (args : JsVal) :
    Except String ToolCallResult × List ApiCall :=
  match mcpToolTable.lookup name with
  | some h => h http args
  | none => (.error ("Bilinmeyen araç: " ++ name), [])

/-- The `catch` wrapper of `mcp-server.js` (`Hata:` is Turkish for
"error"). -/
def mkMcpError (e : String) : ToolCallResult :=
  { content := [⟨"text", "Hata: " ++ e⟩], isError := true }

/-- The `catch` block applied to the body's outcome. -/
def mcpCatch : Except String ToolCallResult × List ApiCall → ToolCallResult × List ApiCall
  | (.ok r, t) => (r, t)
  | (.error e, t) => (mkMcpError e, t)

/-- The complete `mcp-server.js` CallTool request handler (total: no
exception escapes). -/
def mcpDispatch (http : Http) (name : String) (args : JsVal) :
    ToolCallResult × List ApiCall :=
  mcpCatch (mcpDispatchBody http name args)

/-- One entry of the stdio server's ListTools response; `inputSchema` is
the JSON-schema object literal of the source. -/
structure McpToolDecl where
  name : String
  description : String
  inputSchema : JsVal

/-- JSON schema `{ type: "object", properties: { <f>: { type, description } }, required: [<f>] }`
for the single-required-field tools of `mcp-server.js`. -/
def oneFieldSchema (f ty desc : String) : JsVal :=
  .obj [("type", .str "object"),
        ("properties", .obj [(f, .obj [("type", .str ty), ("description", .str desc)])]),
        ("required", .arr [.str f])]

/-- The student-attribute `properties` shared by the `add_student` and
`update_student` schema literals. -/
def studentFieldProps : List (String × JsVal) :=
  [("tc_no", .obj [("type", .str "string"), ("description", .str "TC Kimlik No")]),
   ("ad", .obj [("type", .str "string"), ("description", .str "Ad")]),
   ("soyad", .obj [("type", .str "string"), ("description", .str "Soyad")]),
   ("dogum_tarihi", .obj [("type", .str "string"), ("description", .str "Doğum Tarihi (YYYY-MM-DD)")]),
   ("cinsiyet", .obj [("type", .str "string"), ("description", .str "Cinsiyet (E/K)")]),
   ("telefon", .obj [("type", .str "string"), ("description", .str "Telefon")]),
   ("email", .obj [("type", .str "string"), ("description", .str "Email")]),
   ("adres", .obj [("type", .str "string"), ("description", .str "Adres")]),
   ("veli_adi", .obj [("type", .str "string"), ("description", .str "Veli Adı")]),
   ("veli_telefonu", .obj [("type", .str "string"), ("description", .str "Veli Telefonu")]),
   ("sinif_id", .obj [("type", .str "integer"), ("description", .str "Sınıf ID")])]

/-- The `tools` array returned by the `mcp-server.js`
`ListToolsRequestSchema` handler, in declaration order. -/
def mcpListTools : List McpToolDecl :=
  [⟨"get_all_students", "Tüm aktif öğrencileri sınıf bilgileriyle birlikte getir",
    .obj [("type", .str "object"), ("properties", .obj [])]⟩,
   ⟨"get_student_by_id", "ID ile öğrenci bilgilerini getir",
    oneFieldSchema "id" "integer" "Öğrenci ID"⟩,
   ⟨"get_student_grades", "Öğrencinin notlarını getir",
    oneFieldSchema "id" "integer" "Öğrenci ID"⟩,
   ⟨"get_student_attendance", "Öğrencinin devamsızlık bilgilerini getir",
    oneFieldSchema "id" "integer" "Öğrenci ID"⟩,
   ⟨"get_student_payments", "Öğrencinin ödeme bilgilerini getir",
    oneFieldSchema "id" "integer" "Öğrenci ID"⟩,
   ⟨"get_students_by_class", "Sınıfa göre öğrencileri getir",
    oneFieldSchema "sinif_id" "integer" "Sınıf ID"⟩,
   ⟨"search_students", "Öğrenci ara (isim, soyisim, TC)",
    oneFieldSchema "search" "string" "Arama terimi"⟩,
   ⟨"get_student_average", "Öğrencinin not ortalamasını getir",
    oneFieldSchema "id" "integer" "Öğrenci ID"⟩,
   ⟨"add_student", "Yeni öğrenci ekle",
    .obj [("type", .str "object"), ("properties", .obj studentFieldProps),
          ("required", .arr [.str "tc_no", .str "ad", .str "soyad", .str "dogum_tarihi", .str "cinsiyet"])]⟩,
   ⟨"update_student", "Öğrenci bilgilerini güncelle",
    .obj [("type", .str "object"),
          ("properties", .obj
            ([("id", .obj [("type", .str "integer"), ("description", .str "Öğrenci ID")])] ++
             studentFieldProps ++
             [("aktif", .obj [("type", .str "boolean"), ("description", .str "Aktif durumu")])])),
          ("required", .arr [.str "id"])]⟩,
   ⟨"delete_student", "Öğrenci sil (soft delete)",
    oneFieldSchema "id" "integer" "Öğrenci ID"⟩,
   ⟨"custom_query", "Özel SELECT sorgusu çalıştır",
    .obj [("type", .str "object"),
          ("properties", .obj
            [("query", .obj [("type", .str "string"), ("description", .str "SQL SELECT sorgusu")]),
             ("params", .obj [("type", .str "array"), ("description", .str "Sorgu parametreleri"),
                              ("items", .obj [("type", .str "string")])])]),
          ("required", .arr [.str "query"])]⟩]

/-! ## Session registry and the SSE / message endpoints (`app.js`)

`const transports = new Map()` maps a session id to its SSE transport.
The `Map` is modelled as an association list with unique keys maintained
by `regSet`; `regDelete` is `Map.delete`.  Endpoint side effects other
than registry mutation (console logging, `server.connect`, delivery into a
transport, the `cleanup` hook) are traced as `SessionEffect`s. -/

/-- An SSE transport; `SSEServerTransport` mints `sessionId` itself. -/
structure Transport where
  sessionId : String

/-- The global `transports` map. -/
abbrev SessionRegistry := List (String × Transport)

/-- `transports.get(sessionId)` — the query value may be absent
(`undefined`), which no key equals. -/
def regGet (r : SessionRegistry) (k : Option String) : Option Transport :=
  match k with
  | none => none
  | some s => List.lookup s r

/-- `transports.set(k, v)`: replace the binding if the key is present,
append otherwise (JS `Map` keys are unique). -/
def regSet (r : SessionRegistry) (k : String) (v : Transport) : SessionRegistry :=
  if (r.lookup k).isSome then
    r.map (fun p => if p.1 = k then (k, v) else p)
  else
    r ++ [(k, v)]

/-- `transports.delete(k)`: remove the binding for `k` (a no-op when the
key is absent — `Map.delete` just returns `false`). -/
def regDelete (r : SessionRegistry) (k : String) : SessionRegistry :=
  r.filter (fun p => !(p.1 == k))

/-- Observable endpoint effects other than registry mutation.  Log
messages are represented structurally (their text is fixed in the
source). -/
inductive SessionEffect where
  | logReconnectWarning
  | logConnected (sid : String)
  | logDisconnected (sid : String)
  | logMessageFrom (sid : Option String)
  | logNoTransport (sid : Option String)
  | serverConnect (sid : String)
  | handlePostMessage (sid : String)
  | cleanup

/-- Truthiness of `req?.query?.sessionId`: `undefined` (absent) and the
empty string are both falsy. -/
def jsTruthyOptStr : Option String → Bool
  | none => false
  | some s => !(s == "")

/-- The `GET /sse` handler.  `fresh` is the `SSEServerTransport` the
handler would construct in the else-branch (its `sessionId` is minted by
the SDK).  The truthy branch only reads the map and logs — it never
responds, registers, or connects. -/
def sseGet (r : SessionRegistry) (sessionId : Option String) (fresh : Transport) :
    SessionRegistry × List SessionEffect :=
  if jsTruthyOptStr sessionId then
    (r, [.logReconnectWarning])
  else
    (regSet r fresh.sessionId fresh, [.serverConnect fresh.sessionId, .logConnected fresh.sessionId])

/-- `server.onclose` as installed for a fresh session: log, delete the
registry entry, await the `cleanup` hook (whose body is empty in the
source, so re-running it has no observable effect). -/
def onCloseHandler (r : SessionRegistry) (sid : String) :
    SessionRegistry × List SessionEffect :=
  (regDelete r sid, [.logDisconnected sid, .cleanup])

/-- An HTTP response `{ status, json-body }`. -/
structure HttpResponse where
  status : ℕ
  body : JsVal

/-- Outcome of `POST /message`: either the endpoint itself responds
(session unknown) or it delegates the request to the found transport's
`handlePostMessage`. -/
inductive PostOutcome where
  | respond (resp : HttpResponse)
  | delegated (sid : String)

/-- The `POST /message` handler. -/
def postMessage (r : SessionRegistry) (sessionId : Option String) :
    PostOutcome × SessionRegistry × List SessionEffect :=
  match regGet r sessionId with
  | some t => (.delegated t.sessionId, r, [.logMessageFrom sessionId, .handlePostMessage t.sessionId])
  | none => (.respond ⟨404, .obj [("error", .str "Session not found")]⟩, r,
             [.logNoTransport sessionId])

/-! ## REST routes needed by the claims (`app.js` / the plain-REST file) -/

/-- `POST /api/custom-query`: same prefix guard as the tool, as an HTTP
route (400 on rejection, and the guard fires before `db.all`). -/
def customQueryRoute (store : Store) (query : String) (params : List String) :
    HttpResponse × List StoreCall :=
  if jsStartsWith (jsToUpperCase (jsTrim query)) "SELECT" then
    (match store.all query (params.map JsVal.str) with
     | .error e => ⟨500, .obj [("error", .str e)]⟩
     | .ok rows => ⟨200, .obj [("data", .arr (rows.map JsVal.obj))]⟩,
     [.dbAll query (params.map JsVal.str)])
  else
    (⟨400, .obj [("error", .str selectOnlyMsg)]⟩, [])

/-! ## `GET /api/ogrenciler/:id/ortalama` (the REST average route)

The success branch of this route computes `const genelOrtalama = ...` but
then builds the response from the identifier `genel_ortalama`.  To settle
what that identifier reference does, the response-building expression is
embedded as a small JS expression AST evaluated against the scope of
bindings actually in force at that point in the source. -/

/-- The fragment of JS expressions the response literal uses. -/
inductive JsExpr where
  | lit (v : JsVal)
  | evar (name : String)
  | toFixed2 (e : JsExpr)
  | obj1 (k : String) (e : JsExpr)
  | obj2 (k1 : String) (e1 : JsExpr) (k2 : String) (e2 : JsExpr)

/-- A JS runtime exception raised while evaluating an expression. -/
inductive JsRuntimeError where
  | referenceError (name : String)
  | typeError (msg : String)

/-- Expression evaluation: an identifier not bound in scope raises
`ReferenceError`; `.toFixed(2)` on a non-number raises `TypeError`. -/
def evalJs (env : List (String × JsVal)) : JsExpr → Except JsRuntimeError JsVal
  | .lit v => .ok v
  | .evar n =>
    match env.lookup n with
    | some v => .ok v
    | none => .error (.referenceError n)
  | .toFixed2 e =>
    match evalJs env e with
    | .error er => .error er
    | .ok (.num q) => .ok (.str (ratToFixed2 q))
    | .ok _ => .error (.typeError "toFixed is not a function")
  | .obj1 k e =>
    match evalJs env e with
    | .error er => .error er
    | .ok v => .ok (.obj [(k, v)])
  | .obj2 k1 e1 k2 e2 =>
    match evalJs env e1 with
    | .error er => .error er
    | .ok v1 =>
      match evalJs env e2 with
      | .error er => .error er
      | .ok v2 => .ok (.obj [(k1, v1), (k2, v2)])

/-- `rows.reduce((sum, row) => sum + row.ders_ortalama, 0) / rows.length`
guarded by `rows.length > 0`, else `0`. -/
def computeGenelOrtalama (rows : List DbRow) : ℚ :=
  if rows.length > 0 then
    (rows.foldl (fun s row => s + numFieldOrZero row "ders_ortalama") 0) / rows.length
  else 0

/-- The identifiers in scope inside the `db.all` callback of the route,
with their bindings (module-level bindings whose values the response
expression never reads are bound to `undefined`; only the names matter for
resolving a reference). -/
def ortalamaScope (id : String) (rows : List DbRow) (g : ℚ) : List (String × JsVal) :=
  [("express", .undefined), ("sqlite3", .undefined), ("path", .undefined),
   ("app", .undefined), ("db", .undefined), ("PORT", .undefined),
   ("req", .obj [("params", .obj [("id", .str id)])]), ("res", .undefined),
   ("query", .str studentAverageQuery), ("err", .null),
   ("rows", .arr (rows.map JsVal.obj)), ("genelOrtalama", .num g)]

/-- The argument of `res.json(...)` in the route, verbatim:
`{ data: { genel_ortalama: genel_ortalama.toFixed(2), ders_ortalamalari: rows } }`. -/
def ortalamaResponseExpr : JsExpr :=
  .obj1 "data" (.obj2 "genel_ortalama" (.toFixed2 (.evar "genel_ortalama"))
                "ders_ortalamalari" (.evar "rows"))

/-- The success branch of the route (`err` null): compute
`genelOrtalama`, then evaluate the response literal; an `.ok` would be the
200 JSON response, an `.error` is an exception escaping the callback. -/
def ortalamaSuccessBranch (id : String) (rows : List DbRow) :
    Except JsRuntimeError HttpResponse :=
  let g := computeGenelOrtalama rows
  match evalJs (ortalamaScope id rows g) ortalamaResponseExpr with
  | .error e => .error e
  | .ok v => .ok ⟨200, v⟩

/-! ## `PUT /api/ogrenciler/:id` (the REST update route)

The route destructures twelve fields from the body (a field absent from
the body destructures to `undefined`), then binds all twelve — plus the id
— into one UPDATE statement.  The sqlite3 driver binds JS `undefined` and
`null` as SQL NULL. -/

/-- A value bound into an SQL statement. -/
inductive SqlVal where
  | null
  | int (n : ℤ)
  | real (q : ℚ)
  | text (s : String)

/-- sqlite3 parameter binding: `undefined`/`null` bind as NULL, booleans
as 0/1, numbers as INTEGER or REAL, strings as TEXT.  (Binding an array or
object raises in the driver; unexercised here and modelled as NULL.) -/
def jsToSql : JsVal → SqlVal
  | .undefined => .null
  | .null => .null
  | .bool b => .int (if b then 1 else 0)
  | .num q => if q.den = 1 then .int q.num else .real q
  | .str s => .text s
  | .arr _ => .null
  | .obj _ => .null

/-- The UPDATE statement of the route (whitespace collapsed). -/
def updateOgrenciSql : String :=
  "UPDATE ogrenciler SET tc_no = ?, ad = ?, soyad = ?, dogum_tarihi = ?, cinsiyet = ?, telefon = ?, email = ?, adres = ?, veli_adi = ?, veli_telefonu = ?, sinif_id = ?, aktif = ? WHERE id = ?"

/-- The twelve destructured body fields, in the order they are bound. -/
def updateFields : List String :=
  ["tc_no", "ad", "soyad", "dogum_tarihi", "cinsiyet", "telefon",
   "email", "adres", "veli_adi", "veli_telefonu", "sinif_id", "aktif"]

/-- The parameter array passed to `db.run`: the twelve body fields
followed by `req.params.id`. -/
def updateParams (body : JsVal) (id : String) : List JsVal :=
  (updateFields.map (body.getField ·)) ++ [.str id]

/-- The route handler: submit the UPDATE, 500 on a driver error, else the
success JSON with `this.changes`. -/
def updateStudentRoute (store : Store) (id : String) (body : JsVal) :
    HttpResponse × List StoreCall :=
  (match store.run updateOgrenciSql (updateParams body id) with
   | .error e => ⟨500, .obj [("error", .str e)]⟩
   | .ok info => ⟨200, .obj [("message", .str "Öğrenci başarıyla güncellendi"),
                             ("changes", .num (info.changes : ℚ))]⟩,
   [.dbRun updateOgrenciSql (updateParams body id)])

/-- One row of the `ogrenciler` table (the updatable columns). -/
structure OgrenciRow where
  id : ℤ
  tc_no : SqlVal
  ad : SqlVal
  soyad : SqlVal
  dogum_tarihi : SqlVal
  cinsiyet : SqlVal
  telefon : SqlVal
  email : SqlVal
  adres : SqlVal
  veli_adi : SqlVal
  veli_telefonu : SqlVal
  sinif_id : SqlVal
  aktif : SqlVal

/-- SQL semantics of `updateOgrenciSql`'s SET clause on a row selected by
the WHERE clause: each of the twelve columns is overwritten with the
corresponding bound parameter (the thirteenth parameter is the WHERE
comparand and touches no column).  A parameter list of any other shape
leaves the row unchanged (the statement always binds thirteen). -/
def applyOgrenciUpdate (params : List JsVal) (r : OgrenciRow) : OgrenciRow :=
  match params with
  | [v1, v2, v3, v4, v5, v6, v7, v8, v9, v10, v11, v12, _idParam] =>
    { r with
      tc_no := jsToSql v1, ad := jsToSql v2, soyad := jsToSql v3,
      dogum_tarihi := jsToSql v4, cinsiyet := jsToSql v5, telefon := jsToSql v6,
      email := jsToSql v7, adres := jsToSql v8, veli_adi := jsToSql v9,
      veli_telefonu := jsToSql v10, sinif_id := jsToSql v11, aktif := jsToSql v12 }
  | _ => r

/-! ## Helper lemmas on association-list lookup (the switch/Map model) -/

theorem lookup_none_of_not_mem {β : Type _} (k : String) :
    ∀ (l : List (String × β)), k ∉ l.map Prod.fst → l.lookup k = none := by
  intro l
  induction l with
  | nil => intro _; rfl
  | cons a t ih =>
    intro h
    simp only [List.map_cons, List.mem_cons] at h
    push_neg at h
    have hk : (k == a.1) = false := beq_eq_false_iff_ne.mpr h.1
    obtain ⟨a1, a2⟩ := a
    simpa [List.lookup, hk] using ih h.2

theorem mem_of_lookup_some {β : Type _} {k : String} {v : β} :
    ∀ {l : List (String × β)}, l.lookup k = some v → k ∈ l.map Prod.fst := by
  intro l
  induction l with
  | nil => intro h; exact absurd h (by simp [List.lookup])
  | cons a t ih =>
    intro h
    obtain ⟨a1, a2⟩ := a
    by_cases hk : k = a1
    · simp [hk]
    · have hk' : (k == a1) = false := beq_eq_false_iff_ne.mpr hk
      simp only [List.lookup, hk'] at h
      simp [ih h]

theorem lookup_regDelete (r : SessionRegistry) (k : String) :
    (regDelete r k).lookup k = none := by
  induction r with
  | nil => rfl
  | cons a t ih =>
    obtain ⟨a1, a2⟩ := a
    by_cases hk : a1 = k
    · simpa [regDelete, hk] using ih
    · have hk' : (a1 == k) = false := beq_eq_false_iff_ne.mpr hk
      have hk'' : (k == a1) = false := beq_eq_false_iff_ne.mpr (Ne.symm hk)
      simpa [regDelete, hk', List.lookup, hk''] using ih

theorem regDelete_regDelete (r : SessionRegistry) (k : String) :
    regDelete (regDelete r k) k = regDelete r k := by
  induction r with
  | nil => rfl
  | cons a t ih =>
    by_cases hk : a.1 == k
    · simp [regDelete, List.filter, hk]
    · simp only [Bool.not_eq_true] at hk
      simp [regDelete, List.filter, hk]

/-! ## Claims -/

/-- Claim C1: a tool-call request whose name is not among the registered
tool names is answered by the dispatch handler with an `isError:true`
result whose single text block states the unknown tool and its name
(`Error: Unknown tool: <name>` in the SSE server; the stdio server words
it in Turkish, `Hata: Bilinmeyen araç: <name>` — "Error: unknown tool:
<name>"), with no store or HTTP call made; both dispatchers are total
functions, so no exception escapes the dispatch boundary. -/
theorem claim_C1_unknown_tool (store : Store) (http : Http) (name : String) (args : JsVal) :
    (name ∉ appRegisteredNames →
      appDispatch store name args =
        ({ content := [⟨"text", "Error: " ++ ("Unknown tool: " ++ name)⟩], isError := true }, [])) ∧
    (name ∉ mcpRegisteredNames →
      mcpDispatch http name args =
        ({ content := [⟨"text", "Hata: " ++ ("Bilinmeyen araç: " ++ name)⟩], isError := true }, [])) := by
  constructor
  · intro h
    have hl : appToolTable.lookup name = none := lookup_none_of_not_mem name _ h
    simp [appDispatch, appDispatchBody, hl, appCatch, mkAppError]
  · intro h
    have hl : mcpToolTable.lookup name = none := lookup_none_of_not_mem name _ h
    simp [mcpDispatch, mcpDispatchBody, hl, mcpCatch, mkMcpError]

/-- A Data Store oracle for witnesses: reports no row, empty result sets,
and a no-op write. -/
def emptyStore : Store where
  get := fun _ _ => .ok none
  all := fun _ _ => .ok []
  run := fun _ _ => .ok ⟨0, 0⟩

/-- An HTTP oracle for witnesses: every request succeeds with `{}`. -/
def okHttp : Http where
  get := fun _ => .ok (.obj [])
  post := fun _ _ => .ok (.obj [])
  put := fun _ _ => .ok (.obj [])
  delete := fun _ => .ok (.obj [])

/-- Witness for C1 at the concrete unregistered name `frobnicate`. -/
theorem claim_C1_witness :
    appDispatch emptyStore "frobnicate" (JsVal.obj []) =
      ({ content := [⟨"text", "Error: " ++ ("Unknown tool: " ++ "frobnicate")⟩], isError := true }, []) ∧
    mcpDispatch okHttp "frobnicate" (JsVal.obj []) =
      ({ content := [⟨"text", "Hata: " ++ ("Bilinmeyen araç: " ++ "frobnicate")⟩], isError := true }, []) :=
  ⟨(claim_C1_unknown_tool emptyStore okHttp "frobnicate" (JsVal.obj [])).1 (by decide),
   (claim_C1_unknown_tool emptyStore okHttp "frobnicate" (JsVal.obj [])).2 (by decide)⟩

/-- The validation each `app.js` switch case performs before its handler
runs (the typed payload dropped): the schema of the corresponding
`Schema.parse(args)` call.  `get_all_students` takes no arguments and
performs no parse, so it has no entry. -/
def appValidators : List (String × (JsVal → Except VErr Unit)) :=
  [("get_student_by_id", fun a => (parseStudentId a).map fun _ => ()),
   ("get_student_grades", fun a => (parseStudentId a).map fun _ => ()),
   ("get_student_attendance", fun a => (parseStudentId a).map fun _ => ()),
   ("get_student_payments", fun a => (parseStudentId a).map fun _ => ()),
   ("get_students_by_class", fun a => (parseClassId a).map fun _ => ()),
   ("search_students", fun a => (parseSearch a).map fun _ => ()),
   ("get_student_average", fun a => (parseStudentId a).map fun _ => ()),
   ("custom_query", fun a => (parseCustomQuery a).map fun _ => ())]

/-- A rendered validation message always extends the name of the field it
reports (trivially so for the root-level non-object case, whose field name
is empty). -/
theorem render_extends_field (e : VErr) : ∃ rest, e.render = e.fieldOf ++ rest := by
  cases e with
  | required f => exact ⟨": Required", rfl⟩
  | wrongType f t => exact ⟨": Expected " ++ t, (String.append_assoc f ": Expected " t)⟩
  | notObject => exact ⟨"Expected object", rfl⟩

/-- Reduce a dispatch at a name resolved in the switch table. -/
theorem appDispatch_case (store : Store) (name : String) (args : JsVal) (H : AppHandler)
    (hl : appToolTable.lookup name = some H) :
    appDispatch store name args = appCatch (H store args) := by
  simp [appDispatch, appDispatchBody, hl]

/-- Claim C2, corrected to the SSE server (`app.js`): for every registered
tool with a declared input schema, dispatching arguments that fail that
schema's validation returns `isError:true` whose message extends the name
of the invalid field, and no statement reaches the Data Store — the
handler is never invoked.  (The claim as frozen is false of the stdio
server, which forwards unvalidated arguments: see the counterexample.) -/
theorem claim_C2_validation_app (store : Store) (name : String) (args : JsVal) (e : VErr)
    (f : JsVal → Except VErr Unit)
    (hf0 : appValidators.lookup name = some f) (he : f args = .error e) :
    appDispatch store name args = (mkAppError e.render, []) ∧
    (∃ rest, e.render = e.fieldOf ++ rest) := by
  refine ⟨?_, render_extends_field e⟩
  have hmem : name ∈ appValidators.map Prod.fst := mem_of_lookup_some hf0
  simp only [appValidators, List.map_cons, List.map_nil, List.mem_cons,
    List.not_mem_nil, or_false] at hmem
  rcases hmem with rfl | rfl | rfl | rfl | rfl | rfl | rfl | rfl
  · have hg : (fun a => (parseStudentId a).map fun _ => ()) = f := Option.some.inj hf0
    rw [← hg] at he
    rw [appDispatch_case store "get_student_by_id" args getStudentByIdTool rfl]
    cases hp : parseStudentId args with
    | error e2 =>
      simp only [hp, Except.map, Except.error.injEq] at he
      subst he
      simp [getStudentByIdTool, hp, appCatch]
    | ok v => simp [hp, Except.map] at he
  · have hg : (fun a => (parseStudentId a).map fun _ => ()) = f := Option.some.inj hf0
    rw [← hg] at he
    rw [appDispatch_case store "get_student_grades" args getStudentGradesTool rfl]
    cases hp : parseStudentId args with
    | error e2 =>
      simp only [hp, Except.map, Except.error.injEq] at he
      subst he
      simp [getStudentGradesTool, hp, appCatch]
    | ok v => simp [hp, Except.map] at he
  · have hg : (fun a => (parseStudentId a).map fun _ => ()) = f := Option.some.inj hf0
    rw [← hg] at he
    rw [appDispatch_case store "get_student_attendance" args getStudentAttendanceTool rfl]
    cases hp : parseStudentId args with
    | error e2 =>
      simp only [hp, Except.map, Except.error.injEq] at he
      subst he
      simp [getStudentAttendanceTool, hp, appCatch]
    | ok v => simp [hp, Except.map] at he
  · have hg : (fun a => (parseStudentId a).map fun _ => ()) = f := Option.some.inj hf0
    rw [← hg] at he
    rw [appDispatch_case store "get_student_payments" args getStudentPaymentsTool rfl]
    cases hp : parseStudentId args with
    | error e2 =>
      simp only [hp, Except.map, Except.error.injEq] at he
      subst he
      simp [getStudentPaymentsTool, hp, appCatch]
    | ok v => simp [hp, Except.map] at he
  · have hg : (fun a => (parseClassId a).map fun _ => ()) = f := Option.some.inj hf0
    rw [← hg] at he
    rw [appDispatch_case store "get_students_by_class" args getStudentsByClassTool rfl]
    cases hp : parseClassId args with
    | error e2 =>
      simp only [hp, Except.map, Except.error.injEq] at he
      subst he
      simp [getStudentsByClassTool, hp, appCatch]
    | ok v => simp [hp, Except.map] at he
  · have hg : (fun a => (parseSearch a).map fun _ => ()) = f := Option.some.inj hf0
    rw [← hg] at he
    rw [appDispatch_case store "search_students" args searchStudentsTool rfl]
    cases hp : parseSearch args with
    | error e2 =>
      simp only [hp, Except.map, Except.error.injEq] at he
      subst he
      simp [searchStudentsTool, hp, appCatch]
    | ok v => simp [hp, Except.map] at he
  · have hg : (fun a => (parseStudentId a).map fun _ => ()) = f := Option.some.inj hf0
    rw [← hg] at he
    rw [appDispatch_case store "get_student_average" args getStudentAverageTool rfl]
    cases hp : parseStudentId args with
    | error e2 =>
      simp only [hp, Except.map, Except.error.injEq] at he
      subst he
      simp [getStudentAverageTool, hp, appCatch]
    | ok v => simp [hp, Except.map] at he
  · have hg : (fun a => (parseCustomQuery a).map fun _ => ()) = f := Option.some.inj hf0
    rw [← hg] at he
    rw [appDispatch_case store "custom_query" args customQueryTool rfl]
    cases hp : parseCustomQuery args with
    | error e2 =>
      simp only [hp, Except.map, Except.error.injEq] at he
      subst he
      simp [customQueryTool, hp, appCatch]
    | ok v => simp [hp, Except.map] at he

/-- Counterexample to claim C2 as frozen: the stdio dispatcher
(`mcp-server.js`, a source of the claim) called as `get_student_by_id`
with an argument object missing the required `id` field still issues the
backend HTTP request — with the text `undefined` interpolated for the id —
and, the backend succeeding, returns a non-error result. -/
theorem claim_C2_counterexample :
    (mcpDispatch okHttp "get_student_by_id" (JsVal.obj [])).2 =
      [ApiCall.get "http://localhost:3000/api/ogrenciler/undefined"] ∧
    (mcpDispatch okHttp "get_student_by_id" (JsVal.obj [])).1.isError = false := by
  constructor
  · rfl
  · rfl

/-- Witness for the corrected C2 at the concrete tool `get_student_by_id`
and the empty argument object (missing required `id`). -/
theorem claim_C2_witness :
    appDispatch emptyStore "get_student_by_id" (JsVal.obj []) =
      (mkAppError (VErr.required "id").render, []) ∧
    (∃ rest, (VErr.required "id").render = (VErr.required "id").fieldOf ++ rest) :=
  claim_C2_validation_app emptyStore "get_student_by_id" (JsVal.obj [])
    (VErr.required "id") _ rfl rfl

/-- Claim C3: `POST /message` with a session id not present in the
registry responds 404 `{"error":"Session not found"}`, leaves the registry
exactly as it was, and performs no delivery — the only effect is the
diagnostic log line; in particular no `handlePostMessage`, no dispatcher
run, and no session minting. -/
theorem claim_C3_message_unknown_session (r : SessionRegistry) (sid : Option String)
    (h : regGet r sid = none) :
    postMessage r sid =
      (.respond ⟨404, .obj [("error", .str "Session not found")]⟩, r, [.logNoTransport sid]) := by
  simp [postMessage, h]

/-- Witness for C3: the empty registry and a concrete unknown session id. -/
theorem claim_C3_witness :
    postMessage [] (some "abc") =
      (.respond ⟨404, .obj [("error", .str "Session not found")]⟩, [], [.logNoTransport (some "abc")]) :=
  claim_C3_message_unknown_session [] (some "abc") rfl

/-- Claim C4: after the close handler for a session runs, (a) looking the
id up in the registry yields not-found, (b) the handler's effect list
contains the cleanup hook exactly once (the disconnect log aside, it is
the whole effect), and (c) running the close handler again for the same id
leaves the registry unchanged — `Map.delete` of an absent id is a no-op,
not a fault (and the `cleanup` body is empty in the source, so its second
run is observationally nothing). -/
theorem claim_C4_close_idempotent (r : SessionRegistry) (sid : String) :
    regGet (onCloseHandler r sid).1 (some sid) = none ∧
    (onCloseHandler r sid).2 = [.logDisconnected sid, .cleanup] ∧
    (onCloseHandler (onCloseHandler r sid).1 sid).1 = (onCloseHandler r sid).1 := by
  refine ⟨?_, rfl, ?_⟩
  · simpa [onCloseHandler, regGet] using lookup_regDelete r sid
  · simpa [onCloseHandler] using regDelete_regDelete r sid

/-- Claim C5 is false as frozen: a `GET /sse` request *carrying* a
`sessionId` query parameter whose value is the empty string fails the
truthiness test `if (req?.query?.sessionId)`, so the handler takes the
fresh-connection branch and mints a session — the registry is not left
unchanged. -/
theorem claim_C5_counterexample :
    (sseGet [] (some "") ⟨"fresh-id"⟩).1 = [("fresh-id", ⟨"fresh-id"⟩)] ∧
    (sseGet [] (some "") ⟨"fresh-id"⟩).1 ≠ ([] : SessionRegistry) :=
  ⟨rfl, fun h => nomatch h⟩

/-- Claim C5, amended: for every `GET /sse` carrying a *non-empty*
`sessionId` query parameter, no session is created — the registry after
the request equals the registry before it, and the handler's only effect
is the reconnect diagnostic (no connect, no response: the stalling
behavior §9 of the spec flags). -/
theorem claim_C5_reconnect_no_mint (r : SessionRegistry) (s : String) (fresh : Transport)
    (h : s ≠ "") :
    sseGet r (some s) fresh = (r, [.logReconnectWarning]) := by
  have ht : jsTruthyOptStr (some s) = true := by
    simp [jsTruthyOptStr, h]
  simp [sseGet, ht]

/-- Witness for the amended C5 at a concrete non-empty session id. -/
theorem claim_C5_witness :
    sseGet [] (some "abc123") ⟨"fresh-id"⟩ = ([], [.logReconnectWarning]) :=
  claim_C5_reconnect_no_mint [] "abc123" ⟨"fresh-id"⟩ (by decide)

/-- Claim C6: calling the `get_student_by_id` tool with an id for which
the Data Store reports no row yields `isError:true` whose text is
`Error: Öğrenci bulunamadı` — containing the source's "not found"
indication (`bulunamadı` = "was not found") — with exactly the one lookup
submitted to the store; the rejection is caught at the dispatch boundary,
so no exception escapes (the dispatcher is a total function). -/
theorem claim_C6_student_not_found (store : Store) (id : ℚ)
    (h : store.get studentByIdQuery [.num id] = .ok none) :
    appDispatch store "get_student_by_id" (JsVal.obj [("id", JsVal.num id)]) =
      (mkAppError studentNotFoundMsg, [.dbGet studentByIdQuery [.num id]]) ∧
    (∃ pre post, "Error: " ++ studentNotFoundMsg = pre ++ ("bulunamadı" ++ post)) := by
  constructor
  · rw [appDispatch_case store "get_student_by_id" _ getStudentByIdTool rfl]
    have hp : parseStudentId (JsVal.obj [("id", JsVal.num id)]) = .ok ⟨id⟩ := rfl
    simp [getStudentByIdTool, hp, getStudentById, h, appCatch]
  · exact ⟨"Error: Öğrenci ", "", by decide⟩

/-- Witness for C6 with the all-absent store at the concrete id 5. -/
theorem claim_C6_witness :
    appDispatch emptyStore "get_student_by_id" (JsVal.obj [("id", JsVal.num 5)]) =
      (mkAppError studentNotFoundMsg, [.dbGet studentByIdQuery [.num 5]]) ∧
    (∃ pre post, "Error: " ++ studentNotFoundMsg = pre ++ ("bulunamadı" ++ post)) :=
  claim_C6_student_not_found emptyStore 5 rfl

/-- Claim C7: each server's ListTools response names exactly the tools its
dispatcher resolves (its registry), in declaration order, with no name
omitted and none duplicated; every entry carries a name, a description,
and an input shape (the `AppToolDecl`/`McpToolDecl` record fields). -/
theorem claim_C7_list_tools :
    appListTools.map AppToolDecl.name = appRegisteredNames ∧
    appRegisteredNames.Nodup ∧
    mcpListTools.map McpToolDecl.name = mcpRegisteredNames ∧
    mcpRegisteredNames.Nodup :=
  ⟨rfl, by decide, rfl, by decide⟩

/-- Claim C8: a query string that, after trimming and uppercasing, does
not start with `SELECT` is rejected by the guard in all three places —
the `customQuery` promise rejects, the `custom_query` tool returns an
`isError:true` result, the REST route answers 400 — and in each case the
store-call trace is empty: no statement is ever submitted to the Data
Store. -/
theorem claim_C8_select_guard (store : Store) (q : String) (ps : List String)
    (h : jsStartsWith (jsToUpperCase (jsTrim q)) "SELECT" = false) :
    customQuery store q ps = (.error selectOnlyMsg, []) ∧
    appDispatch store "custom_query" (JsVal.obj [("query", JsVal.str q)]) =
      (mkAppError selectOnlyMsg, []) ∧
    customQueryRoute store q ps = (⟨400, .obj [("error", .str selectOnlyMsg)]⟩, []) := by
  refine ⟨?_, ?_, ?_⟩
  · simp [customQuery, h]
  · rw [appDispatch_case store "custom_query" _ customQueryTool rfl]
    have hp : parseCustomQuery (JsVal.obj [("query", JsVal.str q)]) = .ok ⟨q, none⟩ := rfl
    simp [customQueryTool, hp, customQuery, h, appCatch]
  · simp [customQueryRoute, h]

/-- Witness for C8 at the concrete non-SELECT statement
`DROP TABLE ogrenciler`. -/
theorem claim_C8_witness :
    customQuery emptyStore "DROP TABLE ogrenciler" [] = (.error selectOnlyMsg, []) ∧
    appDispatch emptyStore "custom_query" (JsVal.obj [("query", JsVal.str "DROP TABLE ogrenciler")]) =
      (mkAppError selectOnlyMsg, []) ∧
    customQueryRoute emptyStore "DROP TABLE ogrenciler" [] =
      (⟨400, .obj [("error", .str selectOnlyMsg)]⟩, []) :=
  claim_C8_select_guard emptyStore "DROP TABLE ogrenciler" [] (by decide)

/-- Claim C9: for every id and every row set — the empty set included —
the success path of `GET /api/ogrenciler/:id/ortalama` evaluates the
response literal's reference to `genel_ortalama`, an identifier bound
nowhere in scope (the computed average is bound to `genelOrtalama`), so
the handler raises `ReferenceError` and never produces the intended
`{genel_ortalama, ders_ortalamalari}` 200 response. -/
theorem claim_C9_ortalama_reference_error (id : String) (rows : List DbRow) :
    ortalamaSuccessBranch id rows = .error (.referenceError "genel_ortalama") := rfl

/-- Claim C10: `PUT /api/ogrenciler/:id` binds all twelve updatable
columns from the request body into one UPDATE (the thirteenth bind is the
id): the applied statement overwrites every column with the body's value
under sqlite binding, a field omitted from the body binding as NULL —so a
body supplying nothing writes NULL over every updatable column of the
selected row. -/
theorem claim_C10_update_overwrites_all (store : Store) (id : String) (body : JsVal)
    (r : OgrenciRow) :
    (updateStudentRoute store id body).2 =
      [.dbRun updateOgrenciSql (updateParams body id)] ∧
    applyOgrenciUpdate (updateParams body id) r =
      { r with
        tc_no := jsToSql (body.getField "tc_no"), ad := jsToSql (body.getField "ad"),
        soyad := jsToSql (body.getField "soyad"),
        dogum_tarihi := jsToSql (body.getField "dogum_tarihi"),
        cinsiyet := jsToSql (body.getField "cinsiyet"),
        telefon := jsToSql (body.getField "telefon"),
        email := jsToSql (body.getField "email"),
        adres := jsToSql (body.getField "adres"),
        veli_adi := jsToSql (body.getField "veli_adi"),
        veli_telefonu := jsToSql (body.getField "veli_telefonu"),
        sinif_id := jsToSql (body.getField "sinif_id"),
        aktif := jsToSql (body.getField "aktif") } ∧
    applyOgrenciUpdate (updateParams (JsVal.obj []) id) r =
      { r with
        tc_no := .null, ad := .null, soyad := .null, dogum_tarihi := .null,
        cinsiyet := .null, telefon := .null, email := .null, adres := .null,
        veli_adi := .null, veli_telefonu := .null, sinif_id := .null, aktif := .null } :=
  ⟨rfl, rfl, rfl⟩
